import Mathlib

/-!
Verification of the trade-event extractor (`src/engine/transaction_parser.rs`)
and the resilient sell executor (`src/engine/transaction_retry.rs`) of the
sniper trading bot.  Every definition below is a shallow embedding of the
corresponding Rust item; network collaborators (venue submission, ledger
status queries) are passed in as explicit result oracles, and the wall clock
(`SystemTime::now`) is passed as an explicit `now : Nat` argument.
`f64` fields that the embedded code only stores (never computes with) are
modelled as exact rationals.
-/

namespace Sniper

/-! ## Data model of the streamed transaction update (yellowstone gRPC shapes,
as the parser accesses them) -/

/-- One post-trade token-balance snapshot; the parser reads only `mint`. -/
structure TokenBalance where
  mint : String
deriving Repr, DecidableEq

/-- One inner instruction; the parser reads only its optional byte payload. -/
structure InnerInstructionRec where
  data : Option (List Nat)
deriving Repr, DecidableEq

/-- One inner-instruction group (`meta.inner_instructions[i]`). -/
structure InnerInstructionsRec where
  instructions : List InnerInstructionRec
deriving Repr, DecidableEq

/-- Transaction metadata: log lines, post token balances, inner instructions. -/
structure TransactionStatusMeta where
  log_messages : List String
  post_token_balances : List TokenBalance
  inner_instructions : Option (List InnerInstructionsRec)
deriving Repr, DecidableEq

/-- The transaction message, holding the referenced account keys.  Account
keys (Solana `Pubkey` values) are modelled as opaque strings. -/
structure MessageRec where
  account_keys : List String
deriving Repr, DecidableEq

/-- The inner transaction record holding the message. -/
structure TransactionRec where
  message : Option MessageRec
deriving Repr, DecidableEq

/-- `txn.transaction`: transaction plus metadata. -/
structure TransactionInfoRec where
  transaction : Option TransactionRec
  meta : Option TransactionStatusMeta
deriving Repr, DecidableEq

/-- The streamed update (`SubscribeUpdateTransaction`). -/
structure SubscribeUpdateTransaction where
  transaction : Option TransactionInfoRec
deriving Repr, DecidableEq

/-- Venue discriminator of a parsed trade (`DexType`). -/
inductive DexType where
  | RaydiumLaunchpad
  | Unknown
deriving Repr, DecidableEq

/-- Normalized trade record (`TradeInfoFromToken`).  The Rust `f64` fields
`sol_change`, `token_change`, `liquidity` are stored, never computed with,
by the embedded code, so they are modelled as exact rationals. -/
structure TradeInfoFromToken where
  dex_type : DexType
  slot : Nat
  signature : String
  pool_id : String
  mint : String
  timestamp : Nat
  is_buy : Bool
  price : Nat
  is_reverse : Bool
  coin_creator : Option String
  sol_change : Rat
  token_change : Rat
  liquidity : Rat
  virtual_sol_reserves : Nat
  virtual_token_reserves : Nat
deriving Repr, DecidableEq

/-- Modelled from the spec: the program identifier of the target venue
(the Raydium Launchpad program id), defined in the repository's
`dex::raydium_launchpad` module, which is not under `src/`. -/
def RAYDIUM_LAUNCHPAD_PROGRAM : String :=
  "LanMV9sAd7wArD4vJFi2qDdfnVhFxYSUg6eADduJ3uj"

/-- Modelled from the spec: `Pubkey::from_str` of the external `solana_sdk`
parses a base58 program-identifier string.  Account keys are modelled as
opaque strings, and the only string ever parsed at the call site is the
venue's fixed, well-formed program id, so the parse is modelled as
succeeding with the string itself. -/
def pubkeyFromStr (s : String) : Option String :=
  some s

/-- Substring test (Rust `str::contains`): some drop of the haystack's
character list has the needle's character list as a prefix. -/
def containsSub (hay needle : String) : Bool :=
  (List.range (hay.data.length + 1)).any fun i =>
    needle.data.isPrefixOf (hay.data.drop i)

/-- `has_buy_instruction`: any log line contains the Buy or Swap marker. -/
def has_buy_instruction (txn : SubscribeUpdateTransaction) : Bool :=
  match txn.transaction with
  | some tx_inner =>
    match tx_inner.meta with
    | some meta =>
      meta.log_messages.any fun log =>
        containsSub log "Program log: Instruction: Buy" ||
        containsSub log "Program log: Instruction: Swap"
    | none => false
  | none => false

/-- `has_sell_instruction`: any log line contains the Sell or Swap marker. -/
def has_sell_instruction (txn : SubscribeUpdateTransaction) : Bool :=
  match txn.transaction with
  | some tx_inner =>
    match tx_inner.meta with
    | some meta =>
      meta.log_messages.any fun log =>
        containsSub log "Program log: Instruction: Sell" ||
        containsSub log "Program log: Instruction: Swap"
    | none => false
  | none => false

/-- The wrapped-native (WSOL) mint skipped during mint resolution. -/
def WSOL_MINT : String := "So11111111111111111111111111111111111111112"

/-- The hard-coded default mint used when no balance snapshot yields one. -/
def DEFAULT_MINT : String := "2ivzYvjnKqA4X3dVvPKr7bctGpbxwrXbbxm44TJCpump"

/-- `extract_token_info`: mint of the first post token balance, skipping a
leading WSOL entry when a second entry exists; default mint when empty. -/
def extract_token_info (txn : SubscribeUpdateTransaction) : String :=
  let mint :=
    match txn.transaction with
    | some tx_inner =>
      match tx_inner.meta with
      | some meta =>
        match meta.post_token_balances with
        | [] => ""
        | b0 :: rest =>
          if b0.mint = WSOL_MINT then
            match rest with
            | b1 :: _ => b1.mint
            | [] => b0.mint
          else b0.mint
      | none => ""
    | none => ""
  if mint = "" then DEFAULT_MINT else mint

/-- `parse_u64` (nested helper of `parse_transaction_data`): little-endian
64-bit decode, `none` when fewer than 8 bytes remain past `offset`. -/
def parse_u64 (buffer : List Nat) (offset : Nat) : Option Nat :=
  if offset + 8 > buffer.length then
    none
  else
    some (((buffer.drop offset).take 8).foldr (fun b acc => b + 256 * acc) 0)

/-- `parse_u8`: single byte at `offset`, `none` when out of range. -/
def parse_u8 (buffer : List Nat) (offset : Nat) : Option Nat :=
  if offset ≥ buffer.length then
    none
  else
    some (buffer.getD offset 0)

/-- `parse_public_key`: base58 encoding of 32 bytes at `offset`, `none` when
fewer than 32 bytes remain.  The bs58 encoder is an external crate, passed
here as an explicit parameter. -/
def parse_public_key (encode : List Nat → String) (buffer : List Nat)
    (offset : Nat) : Option String :=
  if offset + 32 > buffer.length then
    none
  else
    some (encode ((buffer.drop offset).take 32))

/-- `parse_transaction_data`: builds the trade record from the update.  The
wall clock read (`SystemTime::now`, seconds since the epoch) is the explicit
`now` argument; the raw `buffer` is accepted but (as in the source) unused
by the simplified decoding logic. -/
def parse_transaction_data (now : Nat) (txn : SubscribeUpdateTransaction)
    (_buffer : List Nat) : Option TradeInfoFromToken :=
  let mint := extract_token_info txn
  let timestamp := now
  let is_buy := has_buy_instruction txn
  let price : Nat := 1000000000
  let sol_change : Rat := if is_buy then -(1/10) else 1/10
  let token_change : Rat := if is_buy then 1000000 else -1000000
  let liquidity : Rat := 1000
  let virtual_sol_reserves : Nat := 30000000000
  let virtual_token_reserves : Nat := 1000000000000000
  some
    { dex_type := DexType.RaydiumLaunchpad
      slot := 0
      signature := ""
      pool_id := ""
      mint := mint
      timestamp := timestamp
      is_buy := is_buy
      price := price
      is_reverse := false
      coin_creator := none
      sol_change := sol_change
      token_change := token_change
      liquidity := liquidity
      virtual_sol_reserves := virtual_sol_reserves
      virtual_token_reserves := virtual_token_reserves }

/-- Inner loop of `process_transaction` over one instruction group: first
instruction carrying a payload that parses yields the trade record. -/
def scanInstructions (now : Nat) (txn : SubscribeUpdateTransaction) :
    List InnerInstructionRec → Option TradeInfoFromToken
  | [] => none
  | inst :: rest =>
    match inst.data with
    | some d =>
      match parse_transaction_data now txn d with
      | some trade_info => some trade_info
      | none => scanInstructions now txn rest
    | none => scanInstructions now txn rest

/-- Outer loop of `process_transaction` over all inner-instruction groups. -/
def scanInnerInstructions (now : Nat) (txn : SubscribeUpdateTransaction) :
    List InnerInstructionsRec → Option TradeInfoFromToken
  | [] => none
  | group :: rest =>
    match scanInstructions now txn group.instructions with
    | some trade_info => some trade_info
    | none => scanInnerInstructions now txn rest

/-- `process_transaction`: relevance-filter on the venue program id among the
account keys, then scan inner instructions for a payload to parse. -/
def process_transaction (now : Nat) (txn : SubscribeUpdateTransaction) :
    Option TradeInfoFromToken :=
  match txn.transaction with
  | none => none
  | some tx_inner =>
    match tx_inner.transaction with
    | none => none
    | some transaction =>
      match transaction.message with
      | none => none
      | some message =>
        match pubkeyFromStr RAYDIUM_LAUNCHPAD_PROGRAM with
        | none => none
        | some raydium_program_id =>
          if message.account_keys.contains raydium_program_id then
            match tx_inner.meta with
            | none => none
            | some meta =>
              match meta.inner_instructions with
              | none => none
              | some inner_instructions =>
                scanInnerInstructions now txn inner_instructions
          else none

/-- The account-key list of an update, empty when any enclosing record is
absent; `process_transaction`'s relevance filter tests membership in it. -/
def accountKeysOf (txn : SubscribeUpdateTransaction) : List String :=
  match txn.transaction with
  | some tx_inner =>
    match tx_inner.transaction with
    | some transaction =>
      match transaction.message with
      | some message => message.account_keys
      | none => []
    | none => []
  | none => []

/-! ## Resilient sell executor and confirmation verifier
(`src/engine/transaction_retry.rs`).  The network collaborators are passed
in as explicit result oracles. -/

/-- `MAX_RETRIES`: maximum number of primary-venue sell attempts. -/
def MAX_RETRIES : Nat := 3

/-- Ledger-reported confirmation level (`TransactionConfirmationStatus`). -/
inductive ConfirmationStatus where
  | processed
  | confirmed
  | finalized
deriving Repr, DecidableEq

/-- Result of one `get_signature_status` query: an error, an absent status,
or a present status carrying its optional confirmation level. -/
inductive QueryResult where
  | err (e : String)
  | okNone
  | okSome (confirmation_status : Option ConfirmationStatus)
deriving Repr, DecidableEq

/-- Loop of `verify_transaction_with_retry`, structurally recursive on the
remaining retry budget `fuel = max_retries - retry_count`.  `query i` is the
ledger's answer to the (i+1)-th status query.  The second component of the
result instruments the number of queries issued. -/
def verifyLoop (query : Nat → QueryResult) (max_retries : Nat) :
    Nat → Nat → Nat → Except String Bool × Nat
  | 0, _retry_count, queries =>
    (Except.error
      ("Transaction verification failed after " ++ toString max_retries ++
        " retries"), queries)
  | fuel + 1, retry_count, queries =>
    match query retry_count with
    | QueryResult.okSome status =>
      if status = some ConfirmationStatus.confirmed then
        (Except.ok true, queries + 1)
      else if status = some ConfirmationStatus.finalized then
        (Except.ok true, queries + 1)
      else
        verifyLoop query max_retries fuel (retry_count + 1) (queries + 1)
    | QueryResult.okNone =>
      verifyLoop query max_retries fuel (retry_count + 1) (queries + 1)
    | QueryResult.err _ =>
      verifyLoop query max_retries fuel (retry_count + 1) (queries + 1)

/-- `verify_transaction_with_retry`: poll the ledger status up to
`max_retries` times; `Confirmed`/`Finalized` is terminal success, exhaustion
is an error naming the retry budget.  The second component counts the
ledger queries issued. -/
def verify_transaction_with_retry (query : Nat → QueryResult)
    (max_retries : Nat) : Except String Bool × Nat :=
  verifyLoop query max_retries max_retries 0 0

/-- Result of one venue sell attempt as the executor observes it: either the
build/submit step failed with an error, or a signature was submitted and the
subsequent `verify_transaction_with_retry` call ended with the given
`Except String Bool` outcome.  Signatures are modelled as opaque strings. -/
inductive AttemptResult where
  | submitFail (e : String)
  | submitOkVerify (sig : String) (verified : Except String Bool)
deriving Repr

/-- An attempt that did not end in a verified-true submission (build/submit
failure, verification false, or verification error). -/
def attemptFailed : AttemptResult → Bool
  | AttemptResult.submitFail _ => true
  | AttemptResult.submitOkVerify _ (Except.ok true) => false
  | AttemptResult.submitOkVerify _ (Except.ok false) => true
  | AttemptResult.submitOkVerify _ (Except.error _) => true

/-- `SellTransactionResult`: outcome record of one sell invocation. -/
structure SellTransactionResult where
  success : Bool
  signature : Option String
  error : Option String
  used_jupiter_fallback : Bool
  attempt_count : Nat
deriving Repr, DecidableEq

/-- Outcome of the primary (Raydium) phase of `execute_sell_with_retry`:
either an early verified-success return, or exhaustion carrying the final
`attempt_count` and `last_error`. -/
inductive PrimaryOutcome where
  | success (r : SellTransactionResult)
  | exhausted (attempt_count : Nat) (last_error : Option String)
deriving Repr, DecidableEq

/-- The `while attempt_count < MAX_RETRIES` loop of
`execute_sell_with_retry`, structurally recursive on the remaining budget
`fuel = MAX_RETRIES - attempt_count`.  `primary i` is the observed result of
the i-th (1-based) Raydium build/submit/verify attempt. -/
def primaryPhase (primary : Nat → AttemptResult) :
    Nat → Nat → Option String → PrimaryOutcome
  | 0, attempt_count, last_error =>
    PrimaryOutcome.exhausted attempt_count last_error
  | fuel + 1, attempt_count, _last_error =>
    let attempt := attempt_count + 1
    match primary attempt with
    | AttemptResult.submitOkVerify sig (Except.ok true) =>
      PrimaryOutcome.success
        { success := true
          signature := some sig
          error := none
          used_jupiter_fallback := false
          attempt_count := attempt }
    | AttemptResult.submitOkVerify _ (Except.ok false) =>
      primaryPhase primary fuel attempt
        (some "Transaction verification failed")
    | AttemptResult.submitOkVerify _ (Except.error e) =>
      primaryPhase primary fuel attempt
        (some ("Transaction verification error: " ++ e))
    | AttemptResult.submitFail e =>
      primaryPhase primary fuel attempt
        (some ("Raydium sell failed: " ++ e))

/-- `execute_sell_with_retry`: up to `MAX_RETRIES` primary attempts, then a
single Jupiter fallback attempt; every exit of the Rust function is a
`return Ok(SellTransactionResult { .. })`, embedded as `Except.ok`. -/
def execute_sell_with_retry (primary : Nat → AttemptResult)
    (fallback : AttemptResult) : Except String SellTransactionResult :=
  match primaryPhase primary MAX_RETRIES 0 none with
  | PrimaryOutcome.success r => Except.ok r
  | PrimaryOutcome.exhausted attempt_count _last_error =>
    match fallback with
    | AttemptResult.submitOkVerify sig (Except.ok true) =>
      Except.ok
        { success := true
          signature := some sig
          error := none
          used_jupiter_fallback := true
          attempt_count := attempt_count }
    | AttemptResult.submitOkVerify _ (Except.ok false) =>
      Except.ok
        { success := false
          signature := none
          error := some "Jupiter transaction verification failed"
          used_jupiter_fallback := true
          attempt_count := attempt_count }
    | AttemptResult.submitOkVerify _ (Except.error e) =>
      Except.ok
        { success := false
          signature := none
          error := some ("Jupiter transaction verification error: " ++ e)
          used_jupiter_fallback := true
          attempt_count := attempt_count }
    | AttemptResult.submitFail e =>
      Except.ok
        { success := false
          signature := none
          error := some ("Jupiter sell failed: " ++ e)
          used_jupiter_fallback := true
          attempt_count := attempt_count }

/-! ## Helper lemmas -/

/-- Unfolding of one primary-phase step whose attempt fails at build/submit. -/
theorem primaryPhase_submitFail (primary : Nat → AttemptResult)
    (fuel attempt_count : Nat) (last_error : Option String) (e : String)
    (h : primary (attempt_count + 1) = AttemptResult.submitFail e) :
    primaryPhase primary (fuel + 1) attempt_count last_error =
      primaryPhase primary fuel (attempt_count + 1)
        (some ("Raydium sell failed: " ++ e)) := by
  simp [primaryPhase, h]

/-- Unfolding of one primary-phase step whose attempt submits and verifies. -/
theorem primaryPhase_verified (primary : Nat → AttemptResult)
    (fuel attempt_count : Nat) (last_error : Option String) (sig : String)
    (h : primary (attempt_count + 1) =
      AttemptResult.submitOkVerify sig (Except.ok true)) :
    primaryPhase primary (fuel + 1) attempt_count last_error =
      PrimaryOutcome.success
        { success := true
          signature := some sig
          error := none
          used_jupiter_fallback := false
          attempt_count := attempt_count + 1 } := by
  simp [primaryPhase, h]

/-- Unfolding of one primary-phase step whose submission verifies false. -/
theorem primaryPhase_verifyFalse (primary : Nat → AttemptResult)
    (fuel attempt_count : Nat) (last_error : Option String) (sig : String)
    (h : primary (attempt_count + 1) =
      AttemptResult.submitOkVerify sig (Except.ok false)) :
    primaryPhase primary (fuel + 1) attempt_count last_error =
      primaryPhase primary fuel (attempt_count + 1)
        (some "Transaction verification failed") := by
  simp [primaryPhase, h]

/-- Unfolding of one primary-phase step whose verification errors. -/
theorem primaryPhase_verifyError (primary : Nat → AttemptResult)
    (fuel attempt_count : Nat) (last_error : Option String) (sig e : String)
    (h : primary (attempt_count + 1) =
      AttemptResult.submitOkVerify sig (Except.error e)) :
    primaryPhase primary (fuel + 1) attempt_count last_error =
      primaryPhase primary fuel (attempt_count + 1)
        (some ("Transaction verification error: " ++ e)) := by
  simp [primaryPhase, h]

/-- Every success outcome of the primary phase comes from a verified-true
submission at the recorded attempt number: the only success exit. -/
theorem primaryPhase_success_shape (primary : Nat → AttemptResult) :
    ∀ fuel attempt_count last_error r,
      primaryPhase primary fuel attempt_count last_error =
        PrimaryOutcome.success r →
      r.success = true ∧ r.used_jupiter_fallback = false ∧ r.error = none ∧
        ∃ sig, r.signature = some sig ∧
          primary r.attempt_count =
            AttemptResult.submitOkVerify sig (Except.ok true) := by
  intro fuel
  induction fuel with
  | zero =>
    intro ac le r h
    simp [primaryPhase] at h
  | succ n ih =>
    intro ac le r h
    cases hp : primary (ac + 1) with
    | submitFail e =>
      rw [primaryPhase_submitFail primary n ac le e hp] at h
      exact ih _ _ _ h
    | submitOkVerify sig v =>
      cases v with
      | ok b =>
        cases b with
        | true =>
          rw [primaryPhase_verified primary n ac le sig hp] at h
          cases h
          exact ⟨rfl, rfl, rfl, sig, rfl, hp⟩
        | false =>
          rw [primaryPhase_verifyFalse primary n ac le sig hp] at h
          exact ih _ _ _ h
      | error e =>
        rw [primaryPhase_verifyError primary n ac le sig e hp] at h
        exact ih _ _ _ h

/-- When every attempt in the budget fails, the primary phase exhausts its
budget, having counted every attempt. -/
theorem primaryPhase_allFailed (primary : Nat → AttemptResult) :
    ∀ fuel attempt_count last_error,
      (∀ i, attempt_count < i → i ≤ attempt_count + fuel →
        attemptFailed (primary i) = true) →
      ∃ le, primaryPhase primary fuel attempt_count last_error =
        PrimaryOutcome.exhausted (attempt_count + fuel) le := by
  intro fuel
  induction fuel with
  | zero =>
    intro ac le _h
    exact ⟨le, by simp [primaryPhase]⟩
  | succ n ih =>
    intro ac le h
    have hfail : attemptFailed (primary (ac + 1)) = true :=
      h (ac + 1) (Nat.lt_succ_self ac) (by omega)
    have hrest : ∀ i, ac + 1 < i → i ≤ ac + 1 + n →
        attemptFailed (primary i) = true :=
      fun i hi1 hi2 => h i (by omega) (by omega)
    have hsum : ac + 1 + n = ac + (n + 1) := by omega
    cases hp : primary (ac + 1) with
    | submitFail e =>
      obtain ⟨le', h'⟩ := ih (ac + 1) (some ("Raydium sell failed: " ++ e)) hrest
      exact ⟨le', by
        rw [primaryPhase_submitFail primary n ac le e hp, h', hsum]⟩
    | submitOkVerify sig v =>
      cases v with
      | ok b =>
        cases b with
        | true =>
          rw [hp] at hfail
          simp [attemptFailed] at hfail
        | false =>
          obtain ⟨le', h'⟩ := ih (ac + 1)
            (some "Transaction verification failed") hrest
          exact ⟨le', by
            rw [primaryPhase_verifyFalse primary n ac le sig hp, h', hsum]⟩
      | error e =>
        obtain ⟨le', h'⟩ := ih (ac + 1)
          (some ("Transaction verification error: " ++ e)) hrest
        exact ⟨le', by
          rw [primaryPhase_verifyError primary n ac le sig e hp, h', hsum]⟩

/-- A fully-populated streamed update: message with account keys, metadata
with log lines, post token balances and optional inner instructions. -/
def mkTxn (keys : List String) (logs : List String) (ptb : List TokenBalance)
    (innerOpt : Option (List InnerInstructionsRec)) :
    SubscribeUpdateTransaction :=
  ⟨some ⟨some ⟨some ⟨keys⟩⟩, some ⟨logs, ptb, innerOpt⟩⟩⟩

/-- The instruction scan yields nothing exactly when no instruction carries
a payload (since `parse_transaction_data` succeeds on every payload). -/
theorem scanInstructions_eq_none_iff (now : Nat)
    (txn : SubscribeUpdateTransaction) (l : List InnerInstructionRec) :
    scanInstructions now txn l = none ↔
      ∀ inst ∈ l, inst.data = none := by
  induction l with
  | nil => simp [scanInstructions]
  | cons inst rest ih =>
    cases hd : inst.data with
    | none => simp [scanInstructions, hd, ih]
    | some d => simp [scanInstructions, hd, parse_transaction_data]

/-- The group scan yields nothing exactly when no instruction of any group
carries a payload. -/
theorem scanInnerInstructions_eq_none_iff (now : Nat)
    (txn : SubscribeUpdateTransaction) (l : List InnerInstructionsRec) :
    scanInnerInstructions now txn l = none ↔
      ∀ g ∈ l, ∀ inst ∈ g.instructions, inst.data = none := by
  induction l with
  | nil => simp [scanInnerInstructions]
  | cons g rest ih =>
    cases hscan : scanInstructions now txn g.instructions with
    | none =>
      have hg := (scanInstructions_eq_none_iff now txn g.instructions).mp hscan
      simp [scanInnerInstructions, hscan, ih, hg]
      exact fun _ => hg
    | some ti =>
      have hne : ¬ ∀ inst ∈ g.instructions, inst.data = none := by
        intro hall
        rw [(scanInstructions_eq_none_iff now txn g.instructions).mpr hall]
          at hscan
        exact Option.noConfusion hscan
      simp [scanInnerInstructions, hscan, hne]

/-- `process_transaction` on a fully-populated relevant update reduces to
the inner-instruction scan. -/
theorem process_transaction_mkTxn (now : Nat) (keys : List String)
    (logs : List String) (ptb : List TokenBalance)
    (innerOpt : Option (List InnerInstructionsRec))
    (hkeys : keys.contains RAYDIUM_LAUNCHPAD_PROGRAM = true) :
    process_transaction now (mkTxn keys logs ptb innerOpt) =
      match innerOpt with
      | none => none
      | some inner_instructions =>
        scanInnerInstructions now (mkTxn keys logs ptb innerOpt)
          inner_instructions := by
  have hmem : RAYDIUM_LAUNCHPAD_PROGRAM ∈ keys := by simpa using hkeys
  simp [process_transaction, mkTxn, pubkeyFromStr, hmem]

/-! ## Claim theorems -/

/-- C1: if the primary build/submit fails on attempt 1 and the attempt-2
submission verifies true, `execute_sell_with_retry` returns
`Ok {success := true, signature := some sig, used_jupiter_fallback := false,
attempt_count := 2}`; moreover a verified-true submission at the recorded
attempt is the only success exit of the primary phase. -/
theorem executor_second_attempt_success
    (primary : Nat → AttemptResult) (fallback : AttemptResult)
    (sig e : String)
    (h1 : primary 1 = AttemptResult.submitFail e)
    (h2 : primary 2 = AttemptResult.submitOkVerify sig (Except.ok true)) :
    execute_sell_with_retry primary fallback =
      Except.ok
        { success := true
          signature := some sig
          error := none
          used_jupiter_fallback := false
          attempt_count := 2 } ∧
    (∀ (p : Nat → AttemptResult) fuel ac le r,
      primaryPhase p fuel ac le = PrimaryOutcome.success r →
      r.success = true ∧ r.used_jupiter_fallback = false ∧
        ∃ s, r.signature = some s ∧
          p r.attempt_count = AttemptResult.submitOkVerify s (Except.ok true)) := by
  constructor
  · have s1 := primaryPhase_submitFail primary 2 0 none e h1
    have s2 := primaryPhase_verified primary 1 1
      (some ("Raydium sell failed: " ++ e)) sig h2
    unfold execute_sell_with_retry
    rw [show MAX_RETRIES = 2 + 1 from rfl, s1, show (2 : Nat) = 1 + 1 from rfl,
      s2]
  · intro p fuel ac le r h
    obtain ⟨hs, hf, _, s, hsig, hp⟩ := primaryPhase_success_shape p fuel ac le r h
    exact ⟨hs, hf, s, hsig, hp⟩

/-- Witness for C1 at a concrete oracle: first attempt fails, second
submits and verifies. -/
theorem executor_second_attempt_success_witness :
    execute_sell_with_retry
        (fun i => if i = 1 then AttemptResult.submitFail "boom"
          else AttemptResult.submitOkVerify "sig2" (Except.ok true))
        (AttemptResult.submitFail "fb") =
      Except.ok
        { success := true
          signature := some "sig2"
          error := none
          used_jupiter_fallback := false
          attempt_count := 2 } :=
  (executor_second_attempt_success
    (fun i => if i = 1 then AttemptResult.submitFail "boom"
      else AttemptResult.submitOkVerify "sig2" (Except.ok true))
    (AttemptResult.submitFail "fb") "sig2" "boom" rfl rfl).1

/-- C2: when all `MAX_RETRIES` primary attempts fail and the single fallback
attempt submits and verifies, the outcome is `success := true`,
`used_jupiter_fallback := true`, and `attempt_count := MAX_RETRIES` (the
fallback attempt is not counted). -/
theorem executor_fallback_success
    (primary : Nat → AttemptResult) (sig : String)
    (hall : ∀ i, 1 ≤ i → i ≤ MAX_RETRIES → attemptFailed (primary i) = true) :
    execute_sell_with_retry primary
        (AttemptResult.submitOkVerify sig (Except.ok true)) =
      Except.ok
        { success := true
          signature := some sig
          error := none
          used_jupiter_fallback := true
          attempt_count := MAX_RETRIES } := by
  obtain ⟨le, hle⟩ := primaryPhase_allFailed primary MAX_RETRIES 0 none
    (fun i hi1 hi2 => hall i (by omega) (by omega))
  unfold execute_sell_with_retry
  rw [hle]
  norm_num

/-- Witness for C2 at a concrete oracle: every primary attempt fails at
build/submit, the fallback submission verifies. -/
theorem executor_fallback_success_witness :
    execute_sell_with_retry (fun _ => AttemptResult.submitFail "down")
        (AttemptResult.submitOkVerify "jsig" (Except.ok true)) =
      Except.ok
        { success := true
          signature := some "jsig"
          error := none
          used_jupiter_fallback := true
          attempt_count := MAX_RETRIES } :=
  executor_fallback_success (fun _ => AttemptResult.submitFail "down") "jsig"
    (fun _ _ _ => rfl)

/-- C3: when every primary attempt fails and the fallback attempt also
fails, the outcome has `success := false`, `signature := none`,
`used_jupiter_fallback := true`, and a non-empty error string. -/
theorem executor_total_failure
    (primary : Nat → AttemptResult) (fallback : AttemptResult)
    (hall : ∀ i, 1 ≤ i → i ≤ MAX_RETRIES → attemptFailed (primary i) = true)
    (hfb : attemptFailed fallback = true) :
    ∃ r, execute_sell_with_retry primary fallback = Except.ok r ∧
      r.success = false ∧ r.signature = none ∧
      r.used_jupiter_fallback = true ∧
      ∃ e, r.error = some e ∧ 0 < e.length := by
  obtain ⟨le, hle⟩ := primaryPhase_allFailed primary MAX_RETRIES 0 none
    (fun i hi1 hi2 => hall i (by omega) (by omega))
  unfold execute_sell_with_retry
  rw [hle]
  cases fallback with
  | submitFail e =>
    refine ⟨_, rfl, rfl, rfl, rfl, "Jupiter sell failed: " ++ e, rfl, ?_⟩
    have hpos : 0 < "Jupiter sell failed: ".length := by decide
    rw [String.length_append]
    omega
  | submitOkVerify sig v =>
    cases v with
    | ok b =>
      cases b with
      | true => simp [attemptFailed] at hfb
      | false =>
        exact ⟨_, rfl, rfl, rfl, rfl,
          "Jupiter transaction verification failed", rfl, by decide⟩
    | error e =>
      refine ⟨_, rfl, rfl, rfl, rfl,
        "Jupiter transaction verification error: " ++ e, rfl, ?_⟩
      have hpos : 0 < "Jupiter transaction verification error: ".length := by
        decide
      rw [String.length_append]
      omega

/-- Witness for C3 at a concrete oracle: both venues fail. -/
theorem executor_total_failure_witness :
    ∃ r, execute_sell_with_retry (fun _ => AttemptResult.submitFail "down")
        (AttemptResult.submitFail "fb") = Except.ok r ∧
      r.success = false ∧ r.signature = none ∧
      r.used_jupiter_fallback = true ∧
      ∃ e, r.error = some e ∧ 0 < e.length :=
  executor_total_failure (fun _ => AttemptResult.submitFail "down")
    (AttemptResult.submitFail "fb") (fun _ _ _ => rfl) rfl

/-- C4: for every possible sequence of build/submit/verify collaborator
results, `execute_sell_with_retry` returns `Ok` of an outcome record — no
failure is propagated past its boundary. -/
theorem executor_never_raises (primary : Nat → AttemptResult)
    (fallback : AttemptResult) :
    ∃ r, execute_sell_with_retry primary fallback = Except.ok r := by
  unfold execute_sell_with_retry
  cases hpp : primaryPhase primary MAX_RETRIES 0 none with
  | success r => exact ⟨r, rfl⟩
  | exhausted ac le =>
    cases fallback with
    | submitFail e => exact ⟨_, rfl⟩
    | submitOkVerify sig v =>
      cases v with
      | ok b => cases b <;> exact ⟨_, rfl⟩
      | error e => exact ⟨_, rfl⟩

/-- C5: the verifier returns true after exactly 3 ledger queries on the
status sequence [absent, present-but-unconfirmed, Confirmed] with a budget
of 5, and errors (naming its budget) after exactly 3 queries when every
query reports the signature absent with a budget of 3. -/
theorem verifier_scenarios :
    verify_transaction_with_retry
        (fun i => if i = 0 then QueryResult.okNone
          else if i = 1 then QueryResult.okSome (some ConfirmationStatus.processed)
          else QueryResult.okSome (some ConfirmationStatus.confirmed)) 5 =
      (Except.ok true, 3) ∧
    verify_transaction_with_retry (fun _ => QueryResult.okNone) 3 =
      (Except.error "Transaction verification failed after 3 retries", 3) := by
  constructor <;> rfl

/-- C6: any streamed update whose account-key list does not contain the
venue program id is ignored: `process_transaction` returns `none`. -/
theorem process_transaction_irrelevant_none (now : Nat)
    (txn : SubscribeUpdateTransaction)
    (h : (accountKeysOf txn).contains RAYDIUM_LAUNCHPAD_PROGRAM = false) :
    process_transaction now txn = none := by
  obtain ⟨tr⟩ := txn
  cases tr with
  | none => rfl
  | some tx_inner =>
    obtain ⟨trans, meta⟩ := tx_inner
    cases trans with
    | none => rfl
    | some transaction =>
      obtain ⟨msg⟩ := transaction
      cases msg with
      | none => rfl
      | some message =>
        have hmem : RAYDIUM_LAUNCHPAD_PROGRAM ∉ message.account_keys := by
          simpa [accountKeysOf] using h
        simp [process_transaction, pubkeyFromStr, hmem]

/-- Witness for C6 at a concrete irrelevant update. -/
theorem process_transaction_irrelevant_none_witness :
    process_transaction 7 (mkTxn ["abc"] [] [] none) = none :=
  process_transaction_irrelevant_none 7 (mkTxn ["abc"] [] [] none) (by decide)

/-- C7 counterexample: the extractor's output depends on the wall clock,
not only on the update — two calls on the same immutable update (and same
buffer) at clock readings 0 and 1 yield records differing in `timestamp`,
so extraction is not a pure function of its input as claimed. -/
theorem extractor_clock_dependence :
    parse_transaction_data 0 ⟨none⟩ [] ≠ parse_transaction_data 1 ⟨none⟩ [] := by
  decide

/-- C7 amended: extraction is deterministic given the clock: the result at
clock `now'` equals the result at any clock (and any buffer) with the
timestamp field overwritten, so every field other than `timestamp` is a
pure function of the update alone, and two calls with the same update and
the same clock reading yield identical records. -/
theorem extractor_deterministic_modulo_clock
    (now now' : Nat) (txn : SubscribeUpdateTransaction)
    (buffer buffer' : List Nat) :
    (parse_transaction_data now txn buffer).map
        (fun ti => { ti with timestamp := now' }) =
      parse_transaction_data now' txn buffer' := by
  rfl

/-- C8: the fixed-width decode helpers are total and bounds-checked:
`parse_u64` yields `none` when fewer than 8 bytes remain past the offset
and decodes `[0x01,0,...,0]` at offset 0 to `1` (little-endian); `parse_u8`
yields `none` when the offset is at or past the end; `parse_public_key`
yields `none` when fewer than 32 bytes remain. -/
theorem decode_helpers_bounds :
    (∀ (buffer : List Nat) (offset : Nat), buffer.length < offset + 8 →
      parse_u64 buffer offset = none) ∧
    parse_u64 [1, 0, 0, 0, 0, 0, 0, 0] 0 = some 1 ∧
    (∀ (buffer : List Nat) (offset : Nat), offset ≥ buffer.length →
      parse_u8 buffer offset = none) ∧
    (∀ (encode : List Nat → String) (buffer : List Nat) (offset : Nat),
      buffer.length < offset + 32 →
      parse_public_key encode buffer offset = none) := by
  refine ⟨?_, by decide, ?_, ?_⟩
  · intro buffer offset h
    simp [parse_u64, h]
  · intro buffer offset h
    simp [parse_u8, h]
  · intro encode buffer offset h
    simp [parse_public_key, h]

/-- Witness for C8 at concrete out-of-range inputs. -/
theorem decode_helpers_bounds_witness :
    parse_u64 [5] 0 = none ∧ parse_u8 [5] 1 = none ∧
    parse_public_key (fun _ => "") [5] 0 = none :=
  ⟨decode_helpers_bounds.1 [5] 0 (by decide),
   decode_helpers_bounds.2.2.1 [5] 1 (by decide),
   decode_helpers_bounds.2.2.2 (fun _ => "") [5] 0 (by decide)⟩

/-- C9: invariant of every outcome `execute_sell_with_retry` returns — the
signature is present exactly when `success` is true; in particular every
failure outcome carries `signature := none` even when a fallback
transaction was submitted but failed verification. -/
theorem executor_signature_iff_success
    (primary : Nat → AttemptResult) (fallback : AttemptResult)
    (r : SellTransactionResult)
    (h : execute_sell_with_retry primary fallback = Except.ok r) :
    r.signature.isSome = r.success := by
  unfold execute_sell_with_retry at h
  cases hpp : primaryPhase primary MAX_RETRIES 0 none with
  | success r' =>
    rw [hpp] at h
    obtain ⟨hs, _, _, sig, hsig, _⟩ :=
      primaryPhase_success_shape primary MAX_RETRIES 0 none r' hpp
    cases h
    simp [hsig, hs]
  | exhausted ac le =>
    rw [hpp] at h
    cases fallback with
    | submitFail e =>
      cases h
      rfl
    | submitOkVerify sig v =>
      cases v with
      | ok b =>
        cases b with
        | true =>
          cases h
          rfl
        | false =>
          cases h
          rfl
      | error e =>
        cases h
        rfl

/-- Witness for C9 at a concrete run where the fallback submission was sent
but failed verification: the outcome still has no signature. -/
theorem executor_signature_iff_success_witness :
    (SellTransactionResult.mk false none
        (some "Jupiter transaction verification failed") true 3).signature.isSome =
      (SellTransactionResult.mk false none
        (some "Jupiter transaction verification failed") true 3).success :=
  executor_signature_iff_success (fun _ => AttemptResult.submitFail "x")
    (AttemptResult.submitOkVerify "fsig" (Except.ok false)) _ rfl

/-- C10: for a relevant update (venue program id among the keys), a trade
record is produced exactly when some inner instruction carries a data
payload: no inner-instruction records, or none with a payload, yields
`none`; at least one payload yields `some`; and `parse_transaction_data`
itself succeeds on every buffer. -/
theorem process_transaction_inner_payload_characterization
    (now : Nat) (keys logs : List String) (ptb : List TokenBalance)
    (innerOpt : Option (List InnerInstructionsRec))
    (hkeys : keys.contains RAYDIUM_LAUNCHPAD_PROGRAM = true) :
    ((innerOpt = none ∨
        ∃ l, innerOpt = some l ∧
          ∀ g ∈ l, ∀ inst ∈ g.instructions, inst.data = none) →
      process_transaction now (mkTxn keys logs ptb innerOpt) = none) ∧
    (∀ l, innerOpt = some l →
      (∃ g ∈ l, ∃ inst ∈ g.instructions, inst.data ≠ none) →
      ∃ ti, process_transaction now (mkTxn keys logs ptb innerOpt) = some ti) ∧
    (∀ (txn : SubscribeUpdateTransaction) (buffer : List Nat),
      ∃ ti, parse_transaction_data now txn buffer = some ti) := by
  refine ⟨?_, ?_, ?_⟩
  · rintro (hnone | ⟨l, hl, hall⟩)
    · subst hnone
      rw [process_transaction_mkTxn now keys logs ptb none hkeys]
    · subst hl
      rw [process_transaction_mkTxn now keys logs ptb (some l) hkeys]
      exact (scanInnerInstructions_eq_none_iff now _ l).mpr hall
  · intro l hl hex
    subst hl
    rw [process_transaction_mkTxn now keys logs ptb (some l) hkeys]
    cases hscan : scanInnerInstructions now (mkTxn keys logs ptb (some l)) l with
    | some ti => exact ⟨ti, hscan⟩
    | none =>
      exfalso
      have hall := (scanInnerInstructions_eq_none_iff now _ l).mp hscan
      obtain ⟨g, hg, inst, hinst, hdata⟩ := hex
      exact hdata (hall g hg inst hinst)
  · intro txn buffer
    exact ⟨_, rfl⟩

/-- Witness for C10 at a concrete relevant update with no inner
instructions. -/
theorem process_transaction_inner_payload_witness :
    process_transaction 0 (mkTxn [RAYDIUM_LAUNCHPAD_PROGRAM] [] [] none) =
      none :=
  (process_transaction_inner_payload_characterization 0
    [RAYDIUM_LAUNCHPAD_PROGRAM] [] [] none (by decide)).1 (Or.inl rfl)

end Sniper
